import Mathlib

/-!
# Verification of the golf_game movement/collision kernel

Shallow embedding of `src/main.cpp` (tile map, circle–rectangle collision,
wall query, movement simulator, rest-gated impulse input).

Modelling conventions:
* C++ `float`/`double` arithmetic is modelled by exact rational arithmetic (`ℚ`);
  all constants of the program (0.99, 20, 2, …) are exactly representable in the
  decimal examples the specification uses.
* C++ `int` is modelled by `ℤ`.
* The C++ float-to-int conversion (used when a `float` is passed to an `int`
  parameter, and in `shiftColliders`) truncates toward zero; `cppTrunc` models it.
* The map file is modelled as the list of integer codes the stream yields;
  running out of codes models `ifstream` failure (unexpected end of file).
-/

namespace GolfGame

/-- `SCREEN_WIDTH` (src/main.cpp line 14). -/
def SCREEN_WIDTH : ℤ := 1280

/-- `SCREEN_HEIGHT` (line 15). -/
def SCREEN_HEIGHT : ℤ := 960

/-- `TILE_WIDTH` (line 18). -/
def TILE_WIDTH : ℤ := 80

/-- `TILE_HEIGHT` (line 19). -/
def TILE_HEIGHT : ℤ := 80

/-- `TOTAL_TILES` (line 20). -/
def TOTAL_TILES : ℕ := 192

/-- `TOTAL_TILE_SPRITES` (line 21). -/
def TOTAL_TILE_SPRITES : ℤ := 12

/-- `TILE_CENTER` (line 27), first wall type. -/
def TILE_CENTER : ℤ := 3

/-- `TILE_TOPLEFT` (line 35), last wall type. -/
def TILE_TOPLEFT : ℤ := 11

/-- `Dot::DOT_WIDTH` (line 152). -/
def DOT_WIDTH : ℤ := 20

/-- C++ conversion of a floating value to `int`: truncation toward zero. -/
def cppTrunc (q : ℚ) : ℤ := if 0 ≤ q then ⌊q⌋ else ⌈q⌉

/-- `struct Circle` (lines 71–75): floating center and radius. -/
structure Circle where
  x : ℚ
  y : ℚ
  r : ℚ
  deriving DecidableEq

/-- `SDL_Rect` as used by the program: integer position and size. -/
structure SDLRect where
  x : ℤ
  y : ℤ
  w : ℤ
  h : ℤ
  deriving DecidableEq

/-- `distanceSquared` (lines 1009–1014): takes `int` arguments, so callers
truncate their floats; returns the exact integer square distance. -/
def distanceSquared (x1 y1 x2 y2 : ℤ) : ℤ :=
  (x2 - x1) * (x2 - x1) + (y2 - y1) * (y2 - y1)

/-- `checkCollision` (lines 808–850): clamp the circle's center to the box to
get the closest point, then compare `distanceSquared` (which receives the
coordinates truncated to `int`) against `r * r`, strictly. -/
def checkCollision (a : Circle) (b : SDLRect) : Bool :=
  let cX : ℚ := if a.x < (b.x : ℚ) then (b.x : ℚ)
    else if a.x > ((b.x + b.w : ℤ) : ℚ) then ((b.x + b.w : ℤ) : ℚ) else a.x
  let cY : ℚ := if a.y < (b.y : ℚ) then (b.y : ℚ)
    else if a.y > ((b.y + b.h : ℤ) : ℚ) then ((b.y + b.h : ℤ) : ℚ) else a.y
  decide (((distanceSquared (cppTrunc a.x) (cppTrunc a.y)
      (cppTrunc cX) (cppTrunc cY) : ℤ) : ℚ) < a.r * a.r)

/-- The collision predicate exactly as §4.2 of the specification words it
(for comparison with `checkCollision`): closest point by independent clamping,
collision iff the exact squared Euclidean distance from the center is strictly
below `radius²`. -/
def specOverlaps (a : Circle) (b : SDLRect) : Bool :=
  let cX : ℚ := if a.x < (b.x : ℚ) then (b.x : ℚ)
    else if a.x > ((b.x + b.w : ℤ) : ℚ) then ((b.x + b.w : ℤ) : ℚ) else a.x
  let cY : ℚ := if a.y < (b.y : ℚ) then (b.y : ℚ)
    else if a.y > ((b.y + b.h : ℤ) : ℚ) then ((b.y + b.h : ℤ) : ℚ) else a.y
  decide ((a.x - cX) * (a.x - cX) + (a.y - cY) * (a.y - cY) < a.r * a.r)

example : checkCollision ⟨448/5, 36/5, 10⟩ ⟨0, 10, 80, 80⟩ = true := by
  norm_num [checkCollision, cppTrunc, distanceSquared]

example : specOverlaps ⟨448/5, 36/5, 10⟩ ⟨0, 10, 80, 80⟩ = false := by
  norm_num [specOverlaps]

/-- A tile (class `Tile`, lines 406–418): collision box and type. -/
structure Tile where
  box : SDLRect
  type : ℤ
  deriving DecidableEq

/-- `Tile::Tile` (lines 406–418): box at `(x, y)` with the fixed tile size. -/
def Tile.make (x y tileType : ℤ) : Tile :=
  ⟨⟨x, y, TILE_WIDTH, TILE_HEIGHT⟩, tileType⟩

/-- `touchesWall` (lines 989–1007): scan the tiles in order; a tile whose type
lies in `[TILE_CENTER, TILE_TOPLEFT]` is a wall; return true on the first wall
tile whose box collides with the circle. -/
def touchesWall (circle : Circle) : List Tile → Bool
  | [] => false
  | t :: ts =>
    if (TILE_CENTER ≤ t.type ∧ t.type ≤ TILE_TOPLEFT) ∧
        checkCollision circle t.box then true
    else touchesWall circle ts

/-- One step of the tile-position cursor (lines 903–914): `x += TILE_WIDTH`;
if `x ≥ SCREEN_WIDTH` then `x = 0` and `y += TILE_HEIGHT`. -/
def nextPos (p : ℤ × ℤ) : ℤ × ℤ :=
  if p.1 + TILE_WIDTH ≥ SCREEN_WIDTH then (0, p.2 + TILE_HEIGHT)
  else (p.1 + TILE_WIDTH, p.2)

/-- The tile-position cursor after `j` steps starting from `p`. -/
def posFrom (p : ℤ × ℤ) : ℕ → ℤ × ℤ
  | 0 => p
  | j + 1 => posFrom (nextPos p) j

/-- The loop body of `setTiles` (lines 872–915): read `n` codes, failing on
end of input (`map.fail()`) or an out-of-range code, building one tile per
code at the cursor position. -/
def setTilesLoop : List ℤ → ℤ × ℤ → ℕ → Option (List Tile)
  | _, _, 0 => some []
  | [], _, _ + 1 => none
  | c :: rest, p, n + 1 =>
    if 0 ≤ c ∧ c < TOTAL_TILE_SPRITES then
      match setTilesLoop rest (nextPos p) n with
      | none => none
      | some ts => some (Tile.make p.1 p.2 c :: ts)
    else none

/-- `setTiles` (lines 852–987) on the sequence of integer codes the map file
yields: read exactly `TOTAL_TILES` codes starting the cursor at `(0, 0)`. -/
def setTiles (codes : List ℤ) : Option (List Tile) :=
  setTilesLoop codes (0, 0) TOTAL_TILES

/-- The agent (class `Dot`, lines 148–190): float position and velocity, the
four mouse-coordinate `int` fields, and the owned collision circle. -/
structure Dot where
  posX : ℚ
  posY : ℚ
  velX : ℚ
  velY : ℚ
  mouseXdown : ℤ
  mouseYdown : ℤ
  mouseXup : ℤ
  mouseYup : ℤ
  collider : Circle
  deriving DecidableEq

/-- `Dot::shiftColliders` (lines 588–594): the collider center is assigned
`int(mPosX)`, `int(mPosY)` — the position truncated toward zero. -/
def Dot.shiftColliders (d : Dot) : Dot :=
  { d with collider :=
      ⟨((cppTrunc d.posX : ℤ) : ℚ), ((cppTrunc d.posY : ℤ) : ℚ), d.collider.r⟩ }

/-- `Dot::Dot` (lines 439–456). The constructor never assigns the four mouse
fields, so their initial contents are indeterminate: the model takes them as
explicit parameters `mxd myd mxu myu`. -/
def Dot.init (x y mxd myd mxu myu : ℤ) : Dot :=
  Dot.shiftColliders
    { posX := (x : ℚ), posY := (y : ℚ), velX := 0, velY := 0,
      mouseXdown := mxd, mouseYdown := myd, mouseXup := mxu, mouseYup := myu,
      collider := ⟨(x : ℚ), (y : ℚ), ((DOT_WIDTH / 2 : ℤ) : ℚ)⟩ }

/-- A mouse event as `Dot::handleEvent` distinguishes them:
`SDL_MOUSEBUTTONDOWN` (press) or `SDL_MOUSEBUTTONUP` (release) at `(x, y)`. -/
inductive MouseEvent where
  | press (x y : ℤ)
  | release (x y : ℤ)
  deriving DecidableEq

/-- `Dot::handleEvent` (lines 486–507): everything is guarded by
`mVelX == 0 && mVelY == 0`; a press stores the coordinates, a release stores
its coordinates and adds `(down - up) * 2` to the velocity. -/
def Dot.handleEvent (d : Dot) (e : MouseEvent) : Dot :=
  if d.velX = 0 ∧ d.velY = 0 then
    match e with
    | .press x y => { d with mouseXdown := x, mouseYdown := y }
    | .release x y =>
      { d with
        mouseXup := x
        mouseYup := y
        velX := d.velX + ((d.mouseXdown - x : ℤ) : ℚ) * 2
        velY := d.velY + ((d.mouseYdown - y : ℤ) : ℚ) * 2 }
  else d

/-- X-axis integration and damping (lines 517–518): `mPosX += mVelX * timeStep`
(pre-damping velocity), then `mVelX *= 0.99`. -/
def Dot.integrateX (d : Dot) (timeStep : ℚ) : Dot :=
  { d with posX := d.posX + d.velX * timeStep, velX := d.velX * (99 / 100) }

/-- Y-axis integration and damping (lines 546–547). -/
def Dot.integrateY (d : Dot) (timeStep : ℚ) : Dot :=
  { d with posY := d.posY + d.velY * timeStep, velY := d.velY * (99 / 100) }

/-- X-axis resolution (lines 523–539): left boundary, else right boundary,
else wall revert to the saved pre-integration `fooX`; each negates `mVelX`. -/
def Dot.resolveX (d : Dot) (fooX : ℚ) (tiles : List Tile) : Dot :=
  if d.posX < ((DOT_WIDTH / 2 : ℤ) : ℚ) then
    { d with posX := ((DOT_WIDTH / 2 : ℤ) : ℚ), velX := -d.velX }
  else if d.posX > ((SCREEN_WIDTH - DOT_WIDTH / 2 : ℤ) : ℚ) then
    { d with posX := ((SCREEN_WIDTH - DOT_WIDTH / 2 : ℤ) : ℚ), velX := -d.velX }
  else if touchesWall d.collider tiles then
    { d with posX := fooX, velX := -d.velX }
  else d

/-- Y-axis resolution (lines 551–565). -/
def Dot.resolveY (d : Dot) (fooY : ℚ) (tiles : List Tile) : Dot :=
  if d.posY < ((DOT_WIDTH / 2 : ℤ) : ℚ) then
    { d with posY := ((DOT_WIDTH / 2 : ℤ) : ℚ), velY := -d.velY }
  else if d.posY > ((SCREEN_HEIGHT - DOT_WIDTH / 2 : ℤ) : ℚ) then
    { d with posY := ((SCREEN_HEIGHT - DOT_WIDTH / 2 : ℤ) : ℚ), velY := -d.velY }
  else if touchesWall d.collider tiles then
    { d with posY := fooY, velY := -d.velY }
  else d

/-- The settle rule (lines 568–572): if `mVelX < 20 && mVelX > -20 && mVelY < 20
&& mVelY > -20`, zero both components. -/
def Dot.settle (d : Dot) : Dot :=
  if d.velX < 20 ∧ -20 < d.velX ∧ d.velY < 20 ∧ -20 < d.velY then
    { d with velX := 0, velY := 0 }
  else d

/-- The X phase of `Dot::move` (lines 514–543): integrate, damp, re-sync the
collider, resolve, re-sync again. `fooX` is the caller's saved position. -/
def Dot.moveX (d : Dot) (tiles : List Tile) (timeStep : ℚ) : Dot :=
  Dot.shiftColliders
    (Dot.resolveX (Dot.shiftColliders (Dot.integrateX d timeStep)) d.posX tiles)

/-- Both axis phases of `Dot::move` (lines 514–566), before the settle rule:
X fully resolved, then Y, with `fooY` saved at the top of the step. -/
def Dot.moveAxes (d : Dot) (tiles : List Tile) (timeStep : ℚ) : Dot :=
  let d2 := Dot.moveX d tiles timeStep
  Dot.shiftColliders
    (Dot.resolveY (Dot.shiftColliders (Dot.integrateY d2 timeStep)) d.posY tiles)

/-- `Dot::move` (lines 511–573): both axes, then the settle rule. -/
def Dot.move (d : Dot) (tiles : List Tile) (timeStep : ℚ) : Dot :=
  Dot.settle (Dot.moveAxes d tiles timeStep)

/-! ## Helper lemmas about the float-to-int truncation -/

lemma cppTrunc_intCast (n : ℤ) : cppTrunc (n : ℚ) = n := by
  unfold cppTrunc
  split <;> simp

lemma cppTrunc_le_of_le {q : ℚ} {n : ℤ} (h : q ≤ (n : ℚ)) : cppTrunc q ≤ n := by
  unfold cppTrunc
  split
  · exact_mod_cast le_trans (Int.floor_le q) h
  · exact Int.ceil_le.mpr h

lemma le_cppTrunc_of_le {q : ℚ} {n : ℤ} (h : (n : ℚ) ≤ q) : n ≤ cppTrunc q := by
  unfold cppTrunc
  split
  · exact Int.le_floor.mpr h
  · exact_mod_cast le_trans h (Int.le_ceil q)

/-- Truncating the clamped coordinate equals clamping the truncated
coordinate, for an integer clamping range with `lo ≤ hi`. -/
lemma cppTrunc_clamp (q : ℚ) (lo hi : ℤ) (hlh : lo ≤ hi) :
    cppTrunc (if q < (lo : ℚ) then (lo : ℚ) else if q > (hi : ℚ) then (hi : ℚ) else q) =
      (if ((cppTrunc q : ℤ) : ℚ) < (lo : ℚ) then lo
       else if ((cppTrunc q : ℤ) : ℚ) > (hi : ℚ) then hi else cppTrunc q) := by
  by_cases h1 : q < (lo : ℚ)
  · have ht : cppTrunc q ≤ lo := cppTrunc_le_of_le h1.le
    rw [if_pos h1, cppTrunc_intCast]
    by_cases h2 : ((cppTrunc q : ℤ) : ℚ) < (lo : ℚ)
    · rw [if_pos h2]
    · have heq : cppTrunc q = lo := le_antisymm ht (by exact_mod_cast not_lt.mp h2)
      have h3 : ¬ ((cppTrunc q : ℤ) : ℚ) > (hi : ℚ) := by
        rw [heq]; exact_mod_cast not_lt.mpr hlh
      rw [if_neg h2, if_neg h3, heq]
  · by_cases h2 : q > (hi : ℚ)
    · have ht : hi ≤ cppTrunc q := le_cppTrunc_of_le h2.le
      rw [if_neg h1, if_pos h2, cppTrunc_intCast]
      have h3 : ¬ ((cppTrunc q : ℤ) : ℚ) < (lo : ℚ) := by
        exact_mod_cast not_lt.mpr (le_trans hlh ht)
      by_cases h4 : ((cppTrunc q : ℤ) : ℚ) > (hi : ℚ)
      · rw [if_neg h3, if_pos h4]
      · have heq : cppTrunc q = hi := le_antisymm (by exact_mod_cast not_lt.mp h4) ht
        rw [if_neg h3, if_neg h4, heq]
    · have hlo : lo ≤ cppTrunc q := le_cppTrunc_of_le (not_lt.mp h1)
      have hhi : cppTrunc q ≤ hi := cppTrunc_le_of_le (not_lt.mp h2)
      rw [if_neg h1, if_neg h2, if_neg, if_neg]
      · exact_mod_cast not_lt.mpr hhi
      · exact_mod_cast not_lt.mpr hlo

/-! ## C1: the circle–rectangle collision test -/

/-- C1 (counterexample): for the circle with center `(89.6, 7.2)` and radius
`10` against the box `(0, 10, 80, 80)`, the closest point on the box is
`(80, 10)` and the exact squared Euclidean distance from the center to it is
exactly `radius²` (tangency), so the claim classifies it as non-colliding
(`specOverlaps` is false), yet `checkCollision` returns true: the code first
truncates the coordinates to `int` when passing them to `distanceSquared`,
which here shrinks the squared distance to `9² + 3² = 90 < 100`. -/
theorem C1_counterexample :
    specOverlaps ⟨448/5, 36/5, 10⟩ ⟨0, 10, 80, 80⟩ = false ∧
      ((448/5 : ℚ) - 80) * (448/5 - 80) + ((36/5 : ℚ) - 10) * (36/5 - 10) = 10 * 10 ∧
      checkCollision ⟨448/5, 36/5, 10⟩ ⟨0, 10, 80, 80⟩ = true := by
  refine ⟨by norm_num [specOverlaps], by norm_num, ?_⟩
  norm_num [checkCollision, cppTrunc, distanceSquared]

/-- C1 (amended): `checkCollision` computes the closest point on the rectangle
by clamping each coordinate of the circle's center independently, but then
truncates both the center and the closest point toward zero to integers and
returns true iff the squared Euclidean distance between the *truncated* points
is strictly less than `radius²` (so tangency of that truncated distance is
non-colliding); equivalently, for a rectangle of nonnegative size it behaves
exactly as the claim's clamp-and-compare rule applied to the truncated
center. -/
theorem C1_checkCollision_trunc_spec (a : Circle) (b : SDLRect)
    (hw : 0 ≤ b.w) (hh : 0 ≤ b.h) :
    checkCollision a b =
      specOverlaps ⟨((cppTrunc a.x : ℤ) : ℚ), ((cppTrunc a.y : ℤ) : ℚ), a.r⟩ b := by
  have hxw : b.x ≤ b.x + b.w := by omega
  have hyh : b.y ≤ b.y + b.h := by omega
  unfold checkCollision specOverlaps
  simp only [cppTrunc_clamp a.x b.x (b.x + b.w) hxw,
    cppTrunc_clamp a.y b.y (b.y + b.h) hyh]
  rw [decide_eq_decide]
  have hcx : (if ((cppTrunc a.x : ℤ) : ℚ) < (b.x : ℚ) then (b.x : ℚ)
        else if ((cppTrunc a.x : ℤ) : ℚ) > ((b.x + b.w : ℤ) : ℚ) then ((b.x + b.w : ℤ) : ℚ)
        else ((cppTrunc a.x : ℤ) : ℚ)) =
      ((if ((cppTrunc a.x : ℤ) : ℚ) < (b.x : ℚ) then b.x
        else if ((cppTrunc a.x : ℤ) : ℚ) > ((b.x + b.w : ℤ) : ℚ) then b.x + b.w
        else cppTrunc a.x : ℤ) : ℚ) := by
    split_ifs <;> rfl
  have hcy : (if ((cppTrunc a.y : ℤ) : ℚ) < (b.y : ℚ) then (b.y : ℚ)
        else if ((cppTrunc a.y : ℤ) : ℚ) > ((b.y + b.h : ℤ) : ℚ) then ((b.y + b.h : ℤ) : ℚ)
        else ((cppTrunc a.y : ℤ) : ℚ)) =
      ((if ((cppTrunc a.y : ℤ) : ℚ) < (b.y : ℚ) then b.y
        else if ((cppTrunc a.y : ℤ) : ℚ) > ((b.y + b.h : ℤ) : ℚ) then b.y + b.h
        else cppTrunc a.y : ℤ) : ℚ) := by
    split_ifs <;> rfl
  rw [hcx, hcy]
  unfold distanceSquared
  constructor <;> intro h <;> (push_cast at h ⊢; nlinarith [h])

/-- C1 (witness): the amended theorem applied at the counterexample's inputs,
whose box has nonnegative size. -/
theorem C1_witness :
    (0 : ℤ) ≤ 80 ∧ (0 : ℤ) ≤ 80 ∧
      checkCollision ⟨448/5, 36/5, 10⟩ ⟨0, 10, 80, 80⟩ =
        specOverlaps ⟨((cppTrunc (448/5 : ℚ) : ℤ) : ℚ),
          ((cppTrunc (36/5 : ℚ) : ℤ) : ℚ), 10⟩ ⟨0, 10, 80, 80⟩ :=
  ⟨by norm_num, by norm_num,
    C1_checkCollision_trunc_spec ⟨448/5, 36/5, 10⟩ ⟨0, 10, 80, 80⟩
      (by norm_num) (by norm_num)⟩

/-! ## Projection facts about the movement phases -/

lemma shiftColliders_posX (d : Dot) : (Dot.shiftColliders d).posX = d.posX := rfl

lemma shiftColliders_posY (d : Dot) : (Dot.shiftColliders d).posY = d.posY := rfl

lemma shiftColliders_velX (d : Dot) : (Dot.shiftColliders d).velX = d.velX := rfl

lemma shiftColliders_velY (d : Dot) : (Dot.shiftColliders d).velY = d.velY := rfl

lemma shiftColliders_r (d : Dot) : (Dot.shiftColliders d).collider.r = d.collider.r := rfl

lemma integrateX_posX (d : Dot) (dt : ℚ) :
    (Dot.integrateX d dt).posX = d.posX + d.velX * dt := rfl

lemma integrateX_velX (d : Dot) (dt : ℚ) :
    (Dot.integrateX d dt).velX = d.velX * (99 / 100) := rfl

lemma integrateX_posY (d : Dot) (dt : ℚ) : (Dot.integrateX d dt).posY = d.posY := rfl

lemma integrateX_velY (d : Dot) (dt : ℚ) : (Dot.integrateX d dt).velY = d.velY := rfl

lemma integrateX_r (d : Dot) (dt : ℚ) :
    (Dot.integrateX d dt).collider.r = d.collider.r := rfl

lemma integrateY_posX (d : Dot) (dt : ℚ) : (Dot.integrateY d dt).posX = d.posX := rfl

lemma integrateY_velX (d : Dot) (dt : ℚ) : (Dot.integrateY d dt).velX = d.velX := rfl

lemma integrateY_posY (d : Dot) (dt : ℚ) :
    (Dot.integrateY d dt).posY = d.posY + d.velY * dt := rfl

lemma integrateY_velY (d : Dot) (dt : ℚ) :
    (Dot.integrateY d dt).velY = d.velY * (99 / 100) := rfl

lemma integrateY_r (d : Dot) (dt : ℚ) :
    (Dot.integrateY d dt).collider.r = d.collider.r := rfl

lemma settle_posX (d : Dot) : (Dot.settle d).posX = d.posX := by
  unfold Dot.settle
  split <;> rfl

lemma settle_posY (d : Dot) : (Dot.settle d).posY = d.posY := by
  unfold Dot.settle
  split <;> rfl

lemma resolveX_posY (d : Dot) (fooX : ℚ) (tiles : List Tile) :
    (Dot.resolveX d fooX tiles).posY = d.posY := by
  unfold Dot.resolveX
  split_ifs <;> rfl

lemma resolveX_velY (d : Dot) (fooX : ℚ) (tiles : List Tile) :
    (Dot.resolveX d fooX tiles).velY = d.velY := by
  unfold Dot.resolveX
  split_ifs <;> rfl

lemma resolveX_r (d : Dot) (fooX : ℚ) (tiles : List Tile) :
    (Dot.resolveX d fooX tiles).collider.r = d.collider.r := by
  unfold Dot.resolveX
  split_ifs <;> rfl

lemma resolveY_posX (d : Dot) (fooY : ℚ) (tiles : List Tile) :
    (Dot.resolveY d fooY tiles).posX = d.posX := by
  unfold Dot.resolveY
  split_ifs <;> rfl

lemma resolveY_velX (d : Dot) (fooY : ℚ) (tiles : List Tile) :
    (Dot.resolveY d fooY tiles).velX = d.velX := by
  unfold Dot.resolveY
  split_ifs <;> rfl

lemma resolveY_r (d : Dot) (fooY : ℚ) (tiles : List Tile) :
    (Dot.resolveY d fooY tiles).collider.r = d.collider.r := by
  unfold Dot.resolveY
  split_ifs <;> rfl

lemma moveX_posY (d : Dot) (tiles : List Tile) (dt : ℚ) :
    (Dot.moveX d tiles dt).posY = d.posY := by
  unfold Dot.moveX
  rw [shiftColliders_posY, resolveX_posY, shiftColliders_posY, integrateX_posY]

lemma moveX_velY (d : Dot) (tiles : List Tile) (dt : ℚ) :
    (Dot.moveX d tiles dt).velY = d.velY := by
  unfold Dot.moveX
  rw [shiftColliders_velY, resolveX_velY, shiftColliders_velY, integrateX_velY]

lemma moveX_r (d : Dot) (tiles : List Tile) (dt : ℚ) :
    (Dot.moveX d tiles dt).collider.r = d.collider.r := by
  unfold Dot.moveX
  rw [shiftColliders_r, resolveX_r, shiftColliders_r, integrateX_r]

lemma moveAxes_posX (d : Dot) (tiles : List Tile) (dt : ℚ) :
    (Dot.moveAxes d tiles dt).posX = (Dot.moveX d tiles dt).posX := by
  unfold Dot.moveAxes
  rw [shiftColliders_posX, resolveY_posX, shiftColliders_posX, integrateY_posX]

lemma moveAxes_velX (d : Dot) (tiles : List Tile) (dt : ℚ) :
    (Dot.moveAxes d tiles dt).velX = (Dot.moveX d tiles dt).velX := by
  unfold Dot.moveAxes
  rw [shiftColliders_velX, resolveY_velX, shiftColliders_velX, integrateY_velX]

/-! ## C2: the settle rule -/

/-- C2: after both axes of a movement step are resolved, if the resolved
velocity satisfies `|velX| < 20` and `|velY| < 20` (each axis independently,
strict), the step ends with both components exactly `0`; and the claim's
instance: an agent at `(640, 480)` with velocity `(15, -15)` over a wall-free
map has post-damping resolved velocity `(14.85, -14.85)` and finishes the step
with velocity `(0, 0)`. -/
theorem C2_settle_zeroes_small_velocity :
    (∀ (d : Dot) (tiles : List Tile) (dt : ℚ),
        |(Dot.moveAxes d tiles dt).velX| < 20 →
        |(Dot.moveAxes d tiles dt).velY| < 20 →
        (Dot.move d tiles dt).velX = 0 ∧ (Dot.move d tiles dt).velY = 0) ∧
      ((Dot.moveAxes ⟨640, 480, 15, -15, 0, 0, 0, 0, ⟨640, 480, 10⟩⟩ [] 1).velX = 1485/100 ∧
        (Dot.moveAxes ⟨640, 480, 15, -15, 0, 0, 0, 0, ⟨640, 480, 10⟩⟩ [] 1).velY = -(1485/100) ∧
        (Dot.move ⟨640, 480, 15, -15, 0, 0, 0, 0, ⟨640, 480, 10⟩⟩ [] 1).velX = 0 ∧
        (Dot.move ⟨640, 480, 15, -15, 0, 0, 0, 0, ⟨640, 480, 10⟩⟩ [] 1).velY = 0) := by
  constructor
  · intro d tiles dt hx hy
    rw [abs_lt] at hx hy
    unfold Dot.move Dot.settle
    rw [if_pos ⟨hx.2, hx.1, hy.2, hy.1⟩]
    exact ⟨rfl, rfl⟩
  · norm_num [Dot.move, Dot.moveAxes, Dot.moveX, Dot.integrateX, Dot.integrateY,
      Dot.resolveX, Dot.resolveY, Dot.settle, Dot.shiftColliders, touchesWall,
      cppTrunc, DOT_WIDTH, SCREEN_WIDTH, SCREEN_HEIGHT]

/-- C2 (witness): the settle theorem applied to the claim's own instance. -/
theorem C2_witness :
    |(Dot.moveAxes ⟨640, 480, 15, -15, 0, 0, 0, 0, ⟨640, 480, 10⟩⟩ [] 1).velX| < 20 ∧
      |(Dot.moveAxes ⟨640, 480, 15, -15, 0, 0, 0, 0, ⟨640, 480, 10⟩⟩ [] 1).velY| < 20 ∧
      (Dot.move ⟨640, 480, 15, -15, 0, 0, 0, 0, ⟨640, 480, 10⟩⟩ [] 1).velX = 0 ∧
      (Dot.move ⟨640, 480, 15, -15, 0, 0, 0, 0, ⟨640, 480, 10⟩⟩ [] 1).velY = 0 := by
  have hx : |(Dot.moveAxes ⟨640, 480, 15, -15, 0, 0, 0, 0, ⟨640, 480, 10⟩⟩ [] 1).velX| < 20 := by
    norm_num [Dot.moveAxes, Dot.moveX, Dot.integrateX, Dot.integrateY,
      Dot.resolveX, Dot.resolveY, Dot.shiftColliders, touchesWall,
      cppTrunc, DOT_WIDTH, SCREEN_WIDTH, SCREEN_HEIGHT, abs_lt]
  have hy : |(Dot.moveAxes ⟨640, 480, 15, -15, 0, 0, 0, 0, ⟨640, 480, 10⟩⟩ [] 1).velY| < 20 := by
    norm_num [Dot.moveAxes, Dot.moveX, Dot.integrateX, Dot.integrateY,
      Dot.resolveX, Dot.resolveY, Dot.shiftColliders, touchesWall,
      cppTrunc, DOT_WIDTH, SCREEN_WIDTH, SCREEN_HEIGHT, abs_lt]
  exact ⟨hx, hy,
    C2_settle_zeroes_small_velocity.1 ⟨640, 480, 15, -15, 0, 0, 0, 0, ⟨640, 480, 10⟩⟩ [] 1 hx hy⟩

/-! ## C3: the wall-revert branch -/

lemma radius_cast : ((DOT_WIDTH / 2 : ℤ) : ℚ) = 10 := by norm_num [DOT_WIDTH]

lemma xmax_cast : ((SCREEN_WIDTH - DOT_WIDTH / 2 : ℤ) : ℚ) = 1270 := by
  norm_num [SCREEN_WIDTH, DOT_WIDTH]

lemma ymax_cast : ((SCREEN_HEIGHT - DOT_WIDTH / 2 : ℤ) : ℚ) = 950 := by
  norm_num [SCREEN_HEIGHT, DOT_WIDTH]

lemma shiftColliders_collider (d : Dot) :
    (Dot.shiftColliders d).collider =
      ⟨((cppTrunc d.posX : ℤ) : ℚ), ((cppTrunc d.posY : ℤ) : ℚ), d.collider.r⟩ := rfl

/-- C3: on an axis where neither boundary branch fires but the (re-synced)
collider touches a wall tile after integration, the step reverts that axis's
position to exactly its pre-integration value and negates that axis's
already-damped velocity (`-(v * 0.99)`). First conjunct: the X axis (the wall
condition is evaluated on the collider holding the truncated integrated X and
the unchanged Y). Second conjunct: the Y axis (the collider holds the X
position as resolved by the X phase and the truncated integrated Y). -/
theorem C3_wall_revert_and_negate :
    (∀ (d : Dot) (tiles : List Tile) (dt : ℚ),
      ¬ (d.posX + d.velX * dt < 10) →
      ¬ (d.posX + d.velX * dt > 1270) →
      touchesWall ⟨((cppTrunc (d.posX + d.velX * dt) : ℤ) : ℚ),
        ((cppTrunc d.posY : ℤ) : ℚ), d.collider.r⟩ tiles = true →
      (Dot.move d tiles dt).posX = d.posX ∧
        (Dot.moveX d tiles dt).velX = -(d.velX * (99/100))) ∧
    (∀ (d : Dot) (tiles : List Tile) (dt : ℚ),
      ¬ (d.posY + d.velY * dt < 10) →
      ¬ (d.posY + d.velY * dt > 950) →
      touchesWall ⟨((cppTrunc (Dot.moveX d tiles dt).posX : ℤ) : ℚ),
        ((cppTrunc (d.posY + d.velY * dt) : ℤ) : ℚ), d.collider.r⟩ tiles = true →
      (Dot.move d tiles dt).posY = d.posY ∧
        (Dot.moveAxes d tiles dt).velY = -(d.velY * (99/100))) := by
  constructor
  · intro d tiles dt h1 h2 h3
    have h1' : ¬ ((Dot.shiftColliders (Dot.integrateX d dt)).posX <
        ((DOT_WIDTH / 2 : ℤ) : ℚ)) := by
      rw [shiftColliders_posX, integrateX_posX, radius_cast]; exact h1
    have h2' : ¬ ((Dot.shiftColliders (Dot.integrateX d dt)).posX >
        ((SCREEN_WIDTH - DOT_WIDTH / 2 : ℤ) : ℚ)) := by
      rw [shiftColliders_posX, integrateX_posX, xmax_cast]; exact h2
    have h3' : touchesWall (Dot.shiftColliders (Dot.integrateX d dt)).collider tiles = true := by
      rw [shiftColliders_collider, integrateX_posX, integrateX_posY, integrateX_r]; exact h3
    have hmx : Dot.moveX d tiles dt =
        Dot.shiftColliders { Dot.shiftColliders (Dot.integrateX d dt) with
          posX := d.posX, velX := -(Dot.shiftColliders (Dot.integrateX d dt)).velX } := by
      unfold Dot.moveX Dot.resolveX
      rw [if_neg h1', if_neg h2', if_pos h3']
    constructor
    · rw [Dot.move, settle_posX, moveAxes_posX, hmx, shiftColliders_posX]
    · rw [hmx, shiftColliders_velX]
      show -(Dot.shiftColliders (Dot.integrateX d dt)).velX = -(d.velX * (99/100))
      rw [shiftColliders_velX, integrateX_velX]
  · intro d tiles dt h1 h2 h3
    have h1' : ¬ ((Dot.shiftColliders (Dot.integrateY (Dot.moveX d tiles dt) dt)).posY <
        ((DOT_WIDTH / 2 : ℤ) : ℚ)) := by
      rw [shiftColliders_posY, integrateY_posY, moveX_posY, moveX_velY, radius_cast]; exact h1
    have h2' : ¬ ((Dot.shiftColliders (Dot.integrateY (Dot.moveX d tiles dt) dt)).posY >
        ((SCREEN_HEIGHT - DOT_WIDTH / 2 : ℤ) : ℚ)) := by
      rw [shiftColliders_posY, integrateY_posY, moveX_posY, moveX_velY, ymax_cast]; exact h2
    have h3' : touchesWall
        (Dot.shiftColliders (Dot.integrateY (Dot.moveX d tiles dt) dt)).collider tiles = true := by
      rw [shiftColliders_collider, integrateY_posX, integrateY_posY, integrateY_r,
        moveX_posY, moveX_velY, moveX_r]
      exact h3
    have hma : Dot.moveAxes d tiles dt =
        Dot.shiftColliders { Dot.shiftColliders (Dot.integrateY (Dot.moveX d tiles dt) dt) with
          posY := d.posY,
          velY := -(Dot.shiftColliders (Dot.integrateY (Dot.moveX d tiles dt) dt)).velY } := by
      show Dot.shiftColliders (Dot.resolveY
        (Dot.shiftColliders (Dot.integrateY (Dot.moveX d tiles dt) dt)) d.posY tiles) = _
      unfold Dot.resolveY
      rw [if_neg h1', if_neg h2', if_pos h3']
    constructor
    · rw [Dot.move, settle_posY, hma, shiftColliders_posY]
    · rw [hma, shiftColliders_velY]
      show -(Dot.shiftColliders (Dot.integrateY (Dot.moveX d tiles dt) dt)).velY
        = -(d.velY * (99/100))
      rw [shiftColliders_velY, integrateY_velY, moveX_velY]

/-- C3 (witness): an agent at `x = 85` moving right at `10` into a wall tile at
`x = 100`: integration gives `x = 95` (no boundary branch), the collider
touches the wall, the position reverts to `85` and the damped velocity `9.9`
is negated. -/
theorem C3_witness :
    touchesWall ⟨((cppTrunc ((85 : ℚ) + 10 * 1) : ℤ) : ℚ), ((cppTrunc (40 : ℚ) : ℤ) : ℚ), 10⟩
      [Tile.make 100 0 3] = true ∧
    (Dot.move ⟨85, 40, 10, 0, 0, 0, 0, 0, ⟨85, 40, 10⟩⟩ [Tile.make 100 0 3] 1).posX = 85 ∧
    (Dot.moveX ⟨85, 40, 10, 0, 0, 0, 0, 0, ⟨85, 40, 10⟩⟩ [Tile.make 100 0 3] 1).velX
      = -(10 * (99/100)) := by
  have h3 : touchesWall ⟨((cppTrunc ((85 : ℚ) + 10 * 1) : ℤ) : ℚ),
      ((cppTrunc (40 : ℚ) : ℤ) : ℚ), 10⟩ [Tile.make 100 0 3] = true := by
    norm_num [touchesWall, Tile.make, checkCollision, cppTrunc, distanceSquared,
      TILE_CENTER, TILE_TOPLEFT, TILE_WIDTH, TILE_HEIGHT]
  have hc := C3_wall_revert_and_negate.1 ⟨85, 40, 10, 0, 0, 0, 0, 0, ⟨85, 40, 10⟩⟩
    [Tile.make 100 0 3] 1 (by norm_num) (by norm_num) h3
  exact ⟨h3, hc.1, hc.2⟩

/-! ## C4: axis resolution priority order -/

/-- C4: within a movement step each axis is resolved by testing three
conditions in exact priority order with first match winning and no
fallthrough: (a) integrated position below the radius clamps to the radius and
negates the damped velocity; (b) else above the playfield dimension minus the
radius (`1270` for X, `950` for Y) clamps there and negates; (c) else wall
contact reverts to the pre-integration position and negates; else the
integrated position and damped velocity stand.  First conjunct: the X phase;
second conjunct: the Y phase (whose wall condition sees the X position as the
X phase resolved it).  Final conjunct: the claim's instance — radius 10,
`posX = 5`, `velX = -50`, `dt = 1/100` ends the step with `posX = 10` and
`velX = 49.5` (damped by 0.99, then sign-inverted). -/
theorem C4_axis_priority :
    (∀ (d : Dot) (tiles : List Tile) (dt : ℚ),
      ((d.posX + d.velX * dt < 10) →
        (Dot.moveX d tiles dt).posX = 10 ∧
          (Dot.moveX d tiles dt).velX = -(d.velX * (99/100))) ∧
      (¬ (d.posX + d.velX * dt < 10) → (d.posX + d.velX * dt > 1270) →
        (Dot.moveX d tiles dt).posX = 1270 ∧
          (Dot.moveX d tiles dt).velX = -(d.velX * (99/100))) ∧
      (¬ (d.posX + d.velX * dt < 10) → ¬ (d.posX + d.velX * dt > 1270) →
        touchesWall ⟨((cppTrunc (d.posX + d.velX * dt) : ℤ) : ℚ),
          ((cppTrunc d.posY : ℤ) : ℚ), d.collider.r⟩ tiles = true →
        (Dot.moveX d tiles dt).posX = d.posX ∧
          (Dot.moveX d tiles dt).velX = -(d.velX * (99/100))) ∧
      (¬ (d.posX + d.velX * dt < 10) → ¬ (d.posX + d.velX * dt > 1270) →
        touchesWall ⟨((cppTrunc (d.posX + d.velX * dt) : ℤ) : ℚ),
          ((cppTrunc d.posY : ℤ) : ℚ), d.collider.r⟩ tiles = false →
        (Dot.moveX d tiles dt).posX = d.posX + d.velX * dt ∧
          (Dot.moveX d tiles dt).velX = d.velX * (99/100))) ∧
    (∀ (d : Dot) (tiles : List Tile) (dt : ℚ),
      ((d.posY + d.velY * dt < 10) →
        (Dot.moveAxes d tiles dt).posY = 10 ∧
          (Dot.moveAxes d tiles dt).velY = -(d.velY * (99/100))) ∧
      (¬ (d.posY + d.velY * dt < 10) → (d.posY + d.velY * dt > 950) →
        (Dot.moveAxes d tiles dt).posY = 950 ∧
          (Dot.moveAxes d tiles dt).velY = -(d.velY * (99/100))) ∧
      (¬ (d.posY + d.velY * dt < 10) → ¬ (d.posY + d.velY * dt > 950) →
        touchesWall ⟨((cppTrunc (Dot.moveX d tiles dt).posX : ℤ) : ℚ),
          ((cppTrunc (d.posY + d.velY * dt) : ℤ) : ℚ), d.collider.r⟩ tiles = true →
        (Dot.moveAxes d tiles dt).posY = d.posY ∧
          (Dot.moveAxes d tiles dt).velY = -(d.velY * (99/100))) ∧
      (¬ (d.posY + d.velY * dt < 10) → ¬ (d.posY + d.velY * dt > 950) →
        touchesWall ⟨((cppTrunc (Dot.moveX d tiles dt).posX : ℤ) : ℚ),
          ((cppTrunc (d.posY + d.velY * dt) : ℤ) : ℚ), d.collider.r⟩ tiles = false →
        (Dot.moveAxes d tiles dt).posY = d.posY + d.velY * dt ∧
          (Dot.moveAxes d tiles dt).velY = d.velY * (99/100))) ∧
    ((Dot.move ⟨5, 480, -50, 0, 0, 0, 0, 0, ⟨5, 480, 10⟩⟩ [] (1/100)).posX = 10 ∧
      (Dot.move ⟨5, 480, -50, 0, 0, 0, 0, 0, ⟨5, 480, 10⟩⟩ [] (1/100)).velX = 99/2) := by
  refine ⟨?_, ?_, ?_⟩
  · intro d tiles dt
    refine ⟨fun h1 => ?_, fun h1 h2 => ?_, fun h1 h2 h3 => ?_, fun h1 h2 h3 => ?_⟩
    · have h1' : (Dot.shiftColliders (Dot.integrateX d dt)).posX <
          ((DOT_WIDTH / 2 : ℤ) : ℚ) := by
        rw [shiftColliders_posX, integrateX_posX, radius_cast]; exact h1
      have hmx : Dot.moveX d tiles dt =
          Dot.shiftColliders { Dot.shiftColliders (Dot.integrateX d dt) with
            posX := ((DOT_WIDTH / 2 : ℤ) : ℚ),
            velX := -(Dot.shiftColliders (Dot.integrateX d dt)).velX } := by
        unfold Dot.moveX Dot.resolveX
        rw [if_pos h1']
      rw [hmx, shiftColliders_posX, shiftColliders_velX]
      refine ⟨radius_cast, ?_⟩
      show -(Dot.shiftColliders (Dot.integrateX d dt)).velX = -(d.velX * (99/100))
      rw [shiftColliders_velX, integrateX_velX]
    · have h1' : ¬ ((Dot.shiftColliders (Dot.integrateX d dt)).posX <
          ((DOT_WIDTH / 2 : ℤ) : ℚ)) := by
        rw [shiftColliders_posX, integrateX_posX, radius_cast]; exact h1
      have h2' : (Dot.shiftColliders (Dot.integrateX d dt)).posX >
          ((SCREEN_WIDTH - DOT_WIDTH / 2 : ℤ) : ℚ) := by
        rw [shiftColliders_posX, integrateX_posX, xmax_cast]; exact h2
      have hmx : Dot.moveX d tiles dt =
          Dot.shiftColliders { Dot.shiftColliders (Dot.integrateX d dt) with
            posX := ((SCREEN_WIDTH - DOT_WIDTH / 2 : ℤ) : ℚ),
            velX := -(Dot.shiftColliders (Dot.integrateX d dt)).velX } := by
        unfold Dot.moveX Dot.resolveX
        rw [if_neg h1', if_pos h2']
      rw [hmx, shiftColliders_posX, shiftColliders_velX]
      refine ⟨xmax_cast, ?_⟩
      show -(Dot.shiftColliders (Dot.integrateX d dt)).velX = -(d.velX * (99/100))
      rw [shiftColliders_velX, integrateX_velX]
    · have h1' : ¬ ((Dot.shiftColliders (Dot.integrateX d dt)).posX <
          ((DOT_WIDTH / 2 : ℤ) : ℚ)) := by
        rw [shiftColliders_posX, integrateX_posX, radius_cast]; exact h1
      have h2' : ¬ ((Dot.shiftColliders (Dot.integrateX d dt)).posX >
          ((SCREEN_WIDTH - DOT_WIDTH / 2 : ℤ) : ℚ)) := by
        rw [shiftColliders_posX, integrateX_posX, xmax_cast]; exact h2
      have h3' : touchesWall (Dot.shiftColliders (Dot.integrateX d dt)).collider tiles = true := by
        rw [shiftColliders_collider, integrateX_posX, integrateX_posY, integrateX_r]; exact h3
      have hmx : Dot.moveX d tiles dt =
          Dot.shiftColliders { Dot.shiftColliders (Dot.integrateX d dt) with
            posX := d.posX, velX := -(Dot.shiftColliders (Dot.integrateX d dt)).velX } := by
        unfold Dot.moveX Dot.resolveX
        rw [if_neg h1', if_neg h2', if_pos h3']
      rw [hmx, shiftColliders_posX, shiftColliders_velX]
      refine ⟨rfl, ?_⟩
      show -(Dot.shiftColliders (Dot.integrateX d dt)).velX = -(d.velX * (99/100))
      rw [shiftColliders_velX, integrateX_velX]
    · have h1' : ¬ ((Dot.shiftColliders (Dot.integrateX d dt)).posX <
          ((DOT_WIDTH / 2 : ℤ) : ℚ)) := by
        rw [shiftColliders_posX, integrateX_posX, radius_cast]; exact h1
      have h2' : ¬ ((Dot.shiftColliders (Dot.integrateX d dt)).posX >
          ((SCREEN_WIDTH - DOT_WIDTH / 2 : ℤ) : ℚ)) := by
        rw [shiftColliders_posX, integrateX_posX, xmax_cast]; exact h2
      have h3' : ¬ (touchesWall (Dot.shiftColliders (Dot.integrateX d dt)).collider tiles = true) := by
        rw [shiftColliders_collider, integrateX_posX, integrateX_posY, integrateX_r, h3]
        exact Bool.false_ne_true
      have hmx : Dot.moveX d tiles dt =
          Dot.shiftColliders (Dot.shiftColliders (Dot.integrateX d dt)) := by
        unfold Dot.moveX Dot.resolveX
        rw [if_neg h1', if_neg h2', if_neg h3']
      rw [hmx, shiftColliders_posX, shiftColliders_velX, shiftColliders_posX,
        shiftColliders_velX, integrateX_posX, integrateX_velX]
      exact ⟨rfl, rfl⟩
  · intro d tiles dt
    refine ⟨fun h1 => ?_, fun h1 h2 => ?_, fun h1 h2 h3 => ?_, fun h1 h2 h3 => ?_⟩
    · have h1' : (Dot.shiftColliders (Dot.integrateY (Dot.moveX d tiles dt) dt)).posY <
          ((DOT_WIDTH / 2 : ℤ) : ℚ) := by
        rw [shiftColliders_posY, integrateY_posY, moveX_posY, moveX_velY, radius_cast]; exact h1
      have hma : Dot.moveAxes d tiles dt =
          Dot.shiftColliders { Dot.shiftColliders (Dot.integrateY (Dot.moveX d tiles dt) dt) with
            posY := ((DOT_WIDTH / 2 : ℤ) : ℚ),
            velY := -(Dot.shiftColliders (Dot.integrateY (Dot.moveX d tiles dt) dt)).velY } := by
        show Dot.shiftColliders (Dot.resolveY
          (Dot.shiftColliders (Dot.integrateY (Dot.moveX d tiles dt) dt)) d.posY tiles) = _
        unfold Dot.resolveY
        rw [if_pos h1']
      rw [hma, shiftColliders_posY, shiftColliders_velY]
      refine ⟨radius_cast, ?_⟩
      show -(Dot.shiftColliders (Dot.integrateY (Dot.moveX d tiles dt) dt)).velY
        = -(d.velY * (99/100))
      rw [shiftColliders_velY, integrateY_velY, moveX_velY]
    · have h1' : ¬ ((Dot.shiftColliders (Dot.integrateY (Dot.moveX d tiles dt) dt)).posY <
          ((DOT_WIDTH / 2 : ℤ) : ℚ)) := by
        rw [shiftColliders_posY, integrateY_posY, moveX_posY, moveX_velY, radius_cast]; exact h1
      have h2' : (Dot.shiftColliders (Dot.integrateY (Dot.moveX d tiles dt) dt)).posY >
          ((SCREEN_HEIGHT - DOT_WIDTH / 2 : ℤ) : ℚ) := by
        rw [shiftColliders_posY, integrateY_posY, moveX_posY, moveX_velY, ymax_cast]; exact h2
      have hma : Dot.moveAxes d tiles dt =
          Dot.shiftColliders { Dot.shiftColliders (Dot.integrateY (Dot.moveX d tiles dt) dt) with
            posY := ((SCREEN_HEIGHT - DOT_WIDTH / 2 : ℤ) : ℚ),
            velY := -(Dot.shiftColliders (Dot.integrateY (Dot.moveX d tiles dt) dt)).velY } := by
        show Dot.shiftColliders (Dot.resolveY
          (Dot.shiftColliders (Dot.integrateY (Dot.moveX d tiles dt) dt)) d.posY tiles) = _
        unfold Dot.resolveY
        rw [if_neg h1', if_pos h2']
      rw [hma, shiftColliders_posY, shiftColliders_velY]
      refine ⟨ymax_cast, ?_⟩
      show -(Dot.shiftColliders (Dot.integrateY (Dot.moveX d tiles dt) dt)).velY
        = -(d.velY * (99/100))
      rw [shiftColliders_velY, integrateY_velY, moveX_velY]
    · have h1' : ¬ ((Dot.shiftColliders (Dot.integrateY (Dot.moveX d tiles dt) dt)).posY <
          ((DOT_WIDTH / 2 : ℤ) : ℚ)) := by
        rw [shiftColliders_posY, integrateY_posY, moveX_posY, moveX_velY, radius_cast]; exact h1
      have h2' : ¬ ((Dot.shiftColliders (Dot.integrateY (Dot.moveX d tiles dt) dt)).posY >
          ((SCREEN_HEIGHT - DOT_WIDTH / 2 : ℤ) : ℚ)) := by
        rw [shiftColliders_posY, integrateY_posY, moveX_posY, moveX_velY, ymax_cast]; exact h2
      have h3' : touchesWall
          (Dot.shiftColliders (Dot.integrateY (Dot.moveX d tiles dt) dt)).collider tiles
            = true := by
        rw [shiftColliders_collider, integrateY_posX, integrateY_posY, integrateY_r,
          moveX_posY, moveX_velY, moveX_r]
        exact h3
      have hma : Dot.moveAxes d tiles dt =
          Dot.shiftColliders { Dot.shiftColliders (Dot.integrateY (Dot.moveX d tiles dt) dt) with
            posY := d.posY,
            velY := -(Dot.shiftColliders (Dot.integrateY (Dot.moveX d tiles dt) dt)).velY } := by
        show Dot.shiftColliders (Dot.resolveY
          (Dot.shiftColliders (Dot.integrateY (Dot.moveX d tiles dt) dt)) d.posY tiles) = _
        unfold Dot.resolveY
        rw [if_neg h1', if_neg h2', if_pos h3']
      rw [hma, shiftColliders_posY, shiftColliders_velY]
      refine ⟨rfl, ?_⟩
      show -(Dot.shiftColliders (Dot.integrateY (Dot.moveX d tiles dt) dt)).velY
        = -(d.velY * (99/100))
      rw [shiftColliders_velY, integrateY_velY, moveX_velY]
    · have h1' : ¬ ((Dot.shiftColliders (Dot.integrateY (Dot.moveX d tiles dt) dt)).posY <
          ((DOT_WIDTH / 2 : ℤ) : ℚ)) := by
        rw [shiftColliders_posY, integrateY_posY, moveX_posY, moveX_velY, radius_cast]; exact h1
      have h2' : ¬ ((Dot.shiftColliders (Dot.integrateY (Dot.moveX d tiles dt) dt)).posY >
          ((SCREEN_HEIGHT - DOT_WIDTH / 2 : ℤ) : ℚ)) := by
        rw [shiftColliders_posY, integrateY_posY, moveX_posY, moveX_velY, ymax_cast]; exact h2
      have h3' : ¬ (touchesWall
          (Dot.shiftColliders (Dot.integrateY (Dot.moveX d tiles dt) dt)).collider tiles
            = true) := by
        rw [shiftColliders_collider, integrateY_posX, integrateY_posY, integrateY_r,
          moveX_posY, moveX_velY, moveX_r, h3]
        exact Bool.false_ne_true
      have hma : Dot.moveAxes d tiles dt =
          Dot.shiftColliders
            (Dot.shiftColliders (Dot.integrateY (Dot.moveX d tiles dt) dt)) := by
        show Dot.shiftColliders (Dot.resolveY
          (Dot.shiftColliders (Dot.integrateY (Dot.moveX d tiles dt) dt)) d.posY tiles) = _
        unfold Dot.resolveY
        rw [if_neg h1', if_neg h2', if_neg h3']
      rw [hma, shiftColliders_posY, shiftColliders_velY, shiftColliders_posY,
        shiftColliders_velY, integrateY_posY, integrateY_velY, moveX_posY, moveX_velY]
      exact ⟨rfl, rfl⟩
  · norm_num [Dot.move, Dot.moveAxes, Dot.moveX, Dot.integrateX, Dot.integrateY,
      Dot.resolveX, Dot.resolveY, Dot.settle, Dot.shiftColliders, touchesWall,
      cppTrunc, DOT_WIDTH, SCREEN_WIDTH, SCREEN_HEIGHT]

/-- C4 (witness): the priority theorem's branch (a) applied to the claim's
instance. -/
theorem C4_witness :
    ((5 : ℚ) + (-50) * (1/100) < 10) ∧
      (Dot.moveX ⟨5, 480, -50, 0, 0, 0, 0, 0, ⟨5, 480, 10⟩⟩ [] (1/100)).posX = 10 ∧
      (Dot.moveX ⟨5, 480, -50, 0, 0, 0, 0, 0, ⟨5, 480, 10⟩⟩ [] (1/100)).velX
        = -((-50) * (99/100)) := by
  have h1 : ((5 : ℚ) + (-50) * (1/100) < 10) := by norm_num
  have hc := (C4_axis_priority.1 ⟨5, 480, -50, 0, 0, 0, 0, 0, ⟨5, 480, 10⟩⟩ [] (1/100)).1 h1
  exact ⟨h1, hc.1, hc.2⟩

/-! ## C7: positions stay within the playfield -/

/-- C7: for every `dt` and every tile map, a movement step keeps the position
within `[radius, dimension - radius]` on both axes — `x` in `[10, 1270]`, `y`
in `[10, 950]` — provided it was within bounds on entry: each resolution
branch either clamps to a bound, reverts to the (in-bounds) pre-step value, or
leaves a position the boundary branches have certified in range. -/
theorem C7_bounds (d : Dot) (tiles : List Tile) (dt : ℚ)
    (hx1 : 10 ≤ d.posX) (hx2 : d.posX ≤ 1270)
    (hy1 : 10 ≤ d.posY) (hy2 : d.posY ≤ 950) :
    (10 ≤ (Dot.move d tiles dt).posX ∧ (Dot.move d tiles dt).posX ≤ 1270) ∧
      (10 ≤ (Dot.move d tiles dt).posY ∧ (Dot.move d tiles dt).posY ≤ 950) := by
  have hpx : (Dot.move d tiles dt).posX =
      (Dot.resolveX (Dot.shiftColliders (Dot.integrateX d dt)) d.posX tiles).posX := by
    rw [Dot.move, settle_posX, moveAxes_posX]
    unfold Dot.moveX
    rw [shiftColliders_posX]
  have hpy : (Dot.move d tiles dt).posY =
      (Dot.resolveY (Dot.shiftColliders (Dot.integrateY (Dot.moveX d tiles dt) dt))
        d.posY tiles).posY := by
    rw [Dot.move, settle_posY]
    show (Dot.shiftColliders (Dot.resolveY (Dot.shiftColliders
      (Dot.integrateY (Dot.moveX d tiles dt) dt)) d.posY tiles)).posY = _
    rw [shiftColliders_posY]
  constructor
  · rw [hpx]
    unfold Dot.resolveX
    split_ifs with h1 h2 h3
    · dsimp only
      rw [radius_cast]
      norm_num
    · dsimp only
      rw [xmax_cast]
      norm_num
    · exact ⟨hx1, hx2⟩
    · rw [radius_cast] at h1
      rw [xmax_cast] at h2
      exact ⟨not_lt.mp h1, not_lt.mp h2⟩
  · rw [hpy]
    unfold Dot.resolveY
    split_ifs with h1 h2 h3
    · dsimp only
      rw [radius_cast]
      norm_num
    · dsimp only
      rw [ymax_cast]
      norm_num
    · exact ⟨hy1, hy2⟩
    · rw [radius_cast] at h1
      rw [ymax_cast] at h2
      exact ⟨not_lt.mp h1, not_lt.mp h2⟩

/-- C7 (witness): the bounds theorem applied to an in-bounds agent. -/
theorem C7_witness :
    ((10 : ℚ) ≤ 640 ∧ (640 : ℚ) ≤ 1270 ∧ (10 : ℚ) ≤ 480 ∧ (480 : ℚ) ≤ 950) ∧
      ((10 ≤ (Dot.move ⟨640, 480, 15, -15, 0, 0, 0, 0, ⟨640, 480, 10⟩⟩ [] 1).posX ∧
          (Dot.move ⟨640, 480, 15, -15, 0, 0, 0, 0, ⟨640, 480, 10⟩⟩ [] 1).posX ≤ 1270) ∧
        (10 ≤ (Dot.move ⟨640, 480, 15, -15, 0, 0, 0, 0, ⟨640, 480, 10⟩⟩ [] 1).posY ∧
          (Dot.move ⟨640, 480, 15, -15, 0, 0, 0, 0, ⟨640, 480, 10⟩⟩ [] 1).posY ≤ 950)) :=
  ⟨⟨by norm_num, by norm_num, by norm_num, by norm_num⟩,
    C7_bounds ⟨640, 480, 15, -15, 0, 0, 0, 0, ⟨640, 480, 10⟩⟩ [] 1
      (by norm_num) (by norm_num) (by norm_num) (by norm_num)⟩


/-! ## C5, C6: the rest-gated impulse input -/

/-- C6 (counterexample): after a gesture from rest gives velocity `(14, 18)`
(Moving), a further press at `(5, 5)` leaves the agent's state completely
unchanged — in particular `mouseXdown` stays `7`, so the press was *not*
recorded, contradicting the claim that presses are recorded while Moving. -/
theorem C6_counterexample :
    (Dot.handleEvent (Dot.handleEvent (Dot.init 640 480 0 0 0 0)
        (.press 7 9)) (.release 0 0)).velX = 14 ∧
      (Dot.handleEvent (Dot.handleEvent (Dot.init 640 480 0 0 0 0)
        (.press 7 9)) (.release 0 0)).mouseXdown = 7 ∧
      Dot.handleEvent (Dot.handleEvent (Dot.handleEvent (Dot.init 640 480 0 0 0 0)
          (.press 7 9)) (.release 0 0)) (.press 5 5) =
        Dot.handleEvent (Dot.handleEvent (Dot.init 640 480 0 0 0 0)
          (.press 7 9)) (.release 0 0) := by
  norm_num [Dot.handleEvent, Dot.init, Dot.shiftColliders, cppTrunc, DOT_WIDTH]

/-- C6 (amended): while the agent is Moving (velocity not exactly `(0, 0)`),
press and release events are ignored entirely: nothing is recorded, the
velocity does not change, and nothing is queued — `handleEvent` is the
identity. -/
theorem C6_moving_ignores (d : Dot) (e : MouseEvent)
    (h : ¬ (d.velX = 0 ∧ d.velY = 0)) :
    Dot.handleEvent d e = d := by
  unfold Dot.handleEvent
  rw [if_neg h]

/-- C6 (witness): the amended theorem applied to a moving agent. -/
theorem C6_witness :
    ¬ (((⟨0, 0, 1, 0, 0, 0, 0, 0, ⟨0, 0, 10⟩⟩ : Dot).velX = 0) ∧
        ((⟨0, 0, 1, 0, 0, 0, 0, 0, ⟨0, 0, 10⟩⟩ : Dot).velY = 0)) ∧
      Dot.handleEvent ⟨0, 0, 1, 0, 0, 0, 0, 0, ⟨0, 0, 10⟩⟩ (.press 5 5) =
        ⟨0, 0, 1, 0, 0, 0, 0, 0, ⟨0, 0, 10⟩⟩ :=
  ⟨by norm_num, C6_moving_ignores ⟨0, 0, 1, 0, 0, 0, 0, 0, ⟨0, 0, 10⟩⟩ (.press 5 5) (by norm_num)⟩



/-- C5 (counterexample): from rest, the gesture press `(100,100)` / release
`(91,100)` gives velocity `(18, 0)` — Moving.  The next press, at `(100,100)`,
is observed while Moving (and is ignored).  One wall-free movement step settles
the agent back to rest.  The release at `(0,0)` then *does* change the
velocity, to `(200, 200) = (press − release) * 2` for its matching press
`(100,100)` — although the agent was Moving when that press was observed,
refuting the claim's `only if` direction. -/
theorem C5_counterexample :
    (Dot.handleEvent (Dot.handleEvent (Dot.init 640 480 0 0 0 0)
        (.press 100 100)) (.release 91 100)).velX = 18 ∧
      (Dot.handleEvent (Dot.handleEvent (Dot.init 640 480 0 0 0 0)
        (.press 100 100)) (.release 91 100)).velY = 0 ∧
      (Dot.handleEvent (Dot.handleEvent (Dot.handleEvent (Dot.init 640 480 0 0 0 0)
          (.press 100 100)) (.release 91 100)) (.press 100 100) =
        Dot.handleEvent (Dot.handleEvent (Dot.init 640 480 0 0 0 0)
          (.press 100 100)) (.release 91 100)) ∧
      (Dot.move (Dot.handleEvent (Dot.handleEvent (Dot.handleEvent (Dot.init 640 480 0 0 0 0)
          (.press 100 100)) (.release 91 100)) (.press 100 100)) [] 1).velX = 0 ∧
      (Dot.move (Dot.handleEvent (Dot.handleEvent (Dot.handleEvent (Dot.init 640 480 0 0 0 0)
          (.press 100 100)) (.release 91 100)) (.press 100 100)) [] 1).velY = 0 ∧
      (Dot.handleEvent (Dot.move (Dot.handleEvent (Dot.handleEvent (Dot.handleEvent
          (Dot.init 640 480 0 0 0 0)
          (.press 100 100)) (.release 91 100)) (.press 100 100)) [] 1) (.release 0 0)).velX
        = 200 ∧
      (Dot.handleEvent (Dot.move (Dot.handleEvent (Dot.handleEvent (Dot.handleEvent
          (Dot.init 640 480 0 0 0 0)
          (.press 100 100)) (.release 91 100)) (.press 100 100)) [] 1) (.release 0 0)).velY
        = 200 := by
  norm_num [Dot.handleEvent, Dot.init, Dot.move, Dot.moveAxes, Dot.moveX,
    Dot.integrateX, Dot.integrateY, Dot.resolveX, Dot.resolveY, Dot.settle,
    Dot.shiftColliders, touchesWall, cppTrunc, DOT_WIDTH, SCREEN_WIDTH, SCREEN_HEIGHT]

/-- C5 (amended): the rest gate is evaluated independently at each event, at
the moment of that event.  (1) A release while the agent is AtRest *at the
release* adds the impulse `(storedPress − release) * 2`, where `storedPress`
is whatever press coordinates are currently stored. (2) While Moving, events
do nothing. (3) If the agent is AtRest at the matching press and still AtRest
at the release, the resulting velocity is exactly
`(2(px − rx), 2(py − ry))`. -/
theorem C5_release_gate :
    (∀ (d : Dot) (rx ry : ℤ), d.velX = 0 ∧ d.velY = 0 →
      (Dot.handleEvent d (.release rx ry)).velX = ((d.mouseXdown - rx : ℤ) : ℚ) * 2 ∧
        (Dot.handleEvent d (.release rx ry)).velY = ((d.mouseYdown - ry : ℤ) : ℚ) * 2) ∧
    (∀ (d : Dot) (e : MouseEvent), ¬ (d.velX = 0 ∧ d.velY = 0) →
      Dot.handleEvent d e = d) ∧
    (∀ (d : Dot) (px py rx ry : ℤ), d.velX = 0 ∧ d.velY = 0 →
      (Dot.handleEvent (Dot.handleEvent d (.press px py)) (.release rx ry)).velX
          = ((px - rx : ℤ) : ℚ) * 2 ∧
        (Dot.handleEvent (Dot.handleEvent d (.press px py)) (.release rx ry)).velY
          = ((py - ry : ℤ) : ℚ) * 2) := by
  refine ⟨fun d rx ry h => ?_, fun d e h => ?_, fun d px py rx ry h => ?_⟩
  · unfold Dot.handleEvent
    rw [if_pos h]
    dsimp only
    rw [h.1, h.2, zero_add, zero_add]
    exact ⟨rfl, rfl⟩
  · unfold Dot.handleEvent
    rw [if_neg h]
  · have hp : Dot.handleEvent d (.press px py) =
        { d with mouseXdown := px, mouseYdown := py } := by
      unfold Dot.handleEvent
      rw [if_pos h]
    rw [hp]
    unfold Dot.handleEvent
    rw [if_pos (show ({ d with mouseXdown := px, mouseYdown := py } : Dot).velX = 0 ∧
      ({ d with mouseXdown := px, mouseYdown := py } : Dot).velY = 0 from h)]
    dsimp only
    rw [h.1, h.2, zero_add, zero_add]
    exact ⟨rfl, rfl⟩

/-- C5 (witness): the amended theorem's release rule applied to a resting
agent whose stored press is `(100, 100)`. -/
theorem C5_witness :
    (((⟨0, 0, 0, 0, 100, 100, 0, 0, ⟨0, 0, 10⟩⟩ : Dot).velX = 0) ∧
        ((⟨0, 0, 0, 0, 100, 100, 0, 0, ⟨0, 0, 10⟩⟩ : Dot).velY = 0)) ∧
      (Dot.handleEvent ⟨0, 0, 0, 0, 100, 100, 0, 0, ⟨0, 0, 10⟩⟩ (.release 0 0)).velX = 200 ∧
      (Dot.handleEvent ⟨0, 0, 0, 0, 100, 100, 0, 0, ⟨0, 0, 10⟩⟩ (.release 0 0)).velY = 200 := by
  have h : ((⟨0, 0, 0, 0, 100, 100, 0, 0, ⟨0, 0, 10⟩⟩ : Dot).velX = 0) ∧
      ((⟨0, 0, 0, 0, 100, 100, 0, 0, ⟨0, 0, 10⟩⟩ : Dot).velY = 0) := ⟨rfl, rfl⟩
  have hc := C5_release_gate.1 ⟨0, 0, 0, 0, 100, 100, 0, 0, ⟨0, 0, 10⟩⟩ 0 0 h
  refine ⟨h, ?_, ?_⟩
  · rw [hc.1]; norm_num
  · rw [hc.2]; norm_num



lemma settle_collider (d : Dot) : (Dot.settle d).collider = d.collider := by
  unfold Dot.settle
  split <;> rfl

lemma moveAxes_r (d : Dot) (tiles : List Tile) (dt : ℚ) :
    (Dot.moveAxes d tiles dt).collider.r = d.collider.r := by
  show (Dot.shiftColliders (Dot.resolveY (Dot.shiftColliders
    (Dot.integrateY (Dot.moveX d tiles dt) dt)) d.posY tiles)).collider.r = _
  rw [shiftColliders_r, resolveY_r, shiftColliders_r, integrateY_r, moveX_r]

/-! ## C8, C10: collider synchronisation and the uninitialized press fields -/

/-- C10: the constructor passes the (indeterminate) initial contents of the
four mouse fields through unchanged; a release while AtRest computes its
impulse from whatever `mouseXdown`/`mouseYdown` hold — the indeterminate
initial values if no press was ever recorded, or a stale press from an earlier
gesture when the intervening press arrived while Moving (final conjuncts: the
press `(60, 70)` arrives while Moving, and the release `(0, 0)` after settling
yields velocity `(80, 100) = ((40, 50) − (0, 0)) * 2` from the *earlier*
gesture's press `(40, 50)`). -/
theorem C10_press_persistence :
    (∀ (x y mxd myd mxu myu : ℤ),
      (Dot.init x y mxd myd mxu myu).mouseXdown = mxd ∧
        (Dot.init x y mxd myd mxu myu).mouseYdown = myd ∧
        (Dot.init x y mxd myd mxu myu).mouseXup = mxu ∧
        (Dot.init x y mxd myd mxu myu).mouseYup = myu) ∧
    (∀ (x y mxd myd mxu myu rx ry : ℤ),
      (Dot.handleEvent (Dot.init x y mxd myd mxu myu) (.release rx ry)).velX
          = ((mxd - rx : ℤ) : ℚ) * 2 ∧
        (Dot.handleEvent (Dot.init x y mxd myd mxu myu) (.release rx ry)).velY
          = ((myd - ry : ℤ) : ℚ) * 2) ∧
    ((Dot.handleEvent (Dot.handleEvent (Dot.init 500 480 0 0 0 0)
        (.press 40 50)) (.release 31 50)).velX = 18 ∧
      (Dot.handleEvent (Dot.handleEvent (Dot.handleEvent (Dot.init 500 480 0 0 0 0)
          (.press 40 50)) (.release 31 50)) (.press 60 70)).mouseXdown = 40 ∧
      (Dot.handleEvent (Dot.move (Dot.handleEvent (Dot.handleEvent (Dot.handleEvent
          (Dot.init 500 480 0 0 0 0)
          (.press 40 50)) (.release 31 50)) (.press 60 70)) [] 1) (.release 0 0)).velX = 80 ∧
      (Dot.handleEvent (Dot.move (Dot.handleEvent (Dot.handleEvent (Dot.handleEvent
          (Dot.init 500 480 0 0 0 0)
          (.press 40 50)) (.release 31 50)) (.press 60 70)) [] 1) (.release 0 0)).velY = 100) := by
  refine ⟨fun x y mxd myd mxu myu => ⟨rfl, rfl, rfl, rfl⟩,
    fun x y mxd myd mxu myu rx ry => ?_, ?_⟩
  · simp [Dot.handleEvent, Dot.init, Dot.shiftColliders]
  · norm_num [Dot.handleEvent, Dot.init, Dot.move, Dot.moveAxes, Dot.moveX,
      Dot.integrateX, Dot.integrateY, Dot.resolveX, Dot.resolveY, Dot.settle,
      Dot.shiftColliders, touchesWall, cppTrunc, DOT_WIDTH, SCREEN_WIDTH, SCREEN_HEIGHT]

/-- C8 (counterexample): an agent at `x = 100` with velocity `25` and
`dt = 1/2` ends the step at `posX = 112.5`, but the collider center `x` is
`112 = int(112.5)` — the collider holds the truncated position, not the exact
floating-point position the claim asserts. -/
theorem C8_counterexample :
    (Dot.move ⟨100, 480, 25, 0, 0, 0, 0, 0, ⟨100, 480, 10⟩⟩ [] (1/2)).posX = 225/2 ∧
      (Dot.move ⟨100, 480, 25, 0, 0, 0, 0, 0, ⟨100, 480, 10⟩⟩ [] (1/2)).collider.x = 112 ∧
      ((112 : ℚ) ≠ 225/2) := by
  norm_num [Dot.move, Dot.moveAxes, Dot.moveX, Dot.integrateX, Dot.integrateY,
    Dot.resolveX, Dot.resolveY, Dot.settle, Dot.shiftColliders, touchesWall,
    cppTrunc, DOT_WIDTH, SCREEN_WIDTH, SCREEN_HEIGHT]

/-- C8 (amended): after construction and after every phase of a movement step
that changes the position, the collider's center equals the position with each
coordinate truncated toward zero to an integer (`shiftColliders` assigns
`int(mPosX)`, `int(mPosY)`), re-derived on every change with no independent
drift; the collider's radius never changes (the constructor sets it to
`DOT_WIDTH / 2` and every phase preserves it), and `handleEvent` changes
neither position nor collider. -/
theorem C8_collider_truncated_sync :
    (∀ (d : Dot) (tiles : List Tile) (dt : ℚ),
      (Dot.moveX d tiles dt).collider.x = ((cppTrunc (Dot.moveX d tiles dt).posX : ℤ) : ℚ) ∧
        (Dot.moveX d tiles dt).collider.y = ((cppTrunc (Dot.moveX d tiles dt).posY : ℤ) : ℚ) ∧
        (Dot.move d tiles dt).collider.x = ((cppTrunc (Dot.move d tiles dt).posX : ℤ) : ℚ) ∧
        (Dot.move d tiles dt).collider.y = ((cppTrunc (Dot.move d tiles dt).posY : ℤ) : ℚ) ∧
        (Dot.move d tiles dt).collider.r = d.collider.r) ∧
    (∀ (x y mxd myd mxu myu : ℤ),
      (Dot.init x y mxd myd mxu myu).collider.x
          = ((cppTrunc (Dot.init x y mxd myd mxu myu).posX : ℤ) : ℚ) ∧
        (Dot.init x y mxd myd mxu myu).collider.y
          = ((cppTrunc (Dot.init x y mxd myd mxu myu).posY : ℤ) : ℚ) ∧
        (Dot.init x y mxd myd mxu myu).collider.r = ((DOT_WIDTH / 2 : ℤ) : ℚ)) ∧
    (∀ (d : Dot) (e : MouseEvent),
      (Dot.handleEvent d e).posX = d.posX ∧ (Dot.handleEvent d e).posY = d.posY ∧
        (Dot.handleEvent d e).collider = d.collider) := by
  refine ⟨fun d tiles dt => ⟨rfl, rfl, ?_, ?_, ?_⟩,
    fun x y mxd myd mxu myu => ⟨rfl, rfl, rfl⟩, fun d e => ?_⟩
  · rw [Dot.move, settle_posX, settle_collider]
    rfl
  · rw [Dot.move, settle_posY, settle_collider]
    rfl
  · rw [Dot.move, settle_collider, moveAxes_r]
  · unfold Dot.handleEvent
    split
    · cases e <;> exact ⟨rfl, rfl, rfl⟩
    · exact ⟨rfl, rfl, rfl⟩


/-! ## C9: tile-map loading -/

/-- The `setTiles` loop succeeds iff at least `n` codes remain and the first
`n` of them are in range. -/
lemma setTilesLoop_isSome (n : ℕ) : ∀ (codes : List ℤ) (p : ℤ × ℤ),
    (setTilesLoop codes p n).isSome = true ↔
      (n ≤ codes.length ∧ ∀ c ∈ codes.take n, 0 ≤ c ∧ c < TOTAL_TILE_SPRITES) := by
  induction n with
  | zero =>
    intro codes p
    simp [setTilesLoop]
  | succ n ih =>
    intro codes p
    cases codes with
    | nil => simp [setTilesLoop]
    | cons c rest =>
      simp only [setTilesLoop]
      by_cases hc : 0 ≤ c ∧ c < TOTAL_TILE_SPRITES
      · rw [if_pos hc]
        have hmatch : (match setTilesLoop rest (nextPos p) n with
            | none => none
            | some ts => some (Tile.make p.1 p.2 c :: ts)).isSome
            = (setTilesLoop rest (nextPos p) n).isSome := by
          cases setTilesLoop rest (nextPos p) n <;> rfl
        rw [hmatch, ih rest (nextPos p)]
        simp only [List.length_cons, List.take_succ_cons, List.forall_mem_cons]
        constructor
        · rintro ⟨h1, h2⟩
          exact ⟨by omega, hc, h2⟩
        · rintro ⟨h1, _, h2⟩
          exact ⟨by omega, h2⟩
      · rw [if_neg hc]
        simp only [Option.isSome_none, Bool.false_eq_true, false_iff, not_and]
        intro _ hall
        exact hc (hall c (by simp [List.take_succ_cons]))

/-- On success the `setTiles` loop builds one tile per code, in order, at the
successive cursor positions. -/
lemma setTilesLoop_some (n : ℕ) : ∀ (codes : List ℤ) (p : ℤ × ℤ) (ts : List Tile),
    setTilesLoop codes p n = some ts →
      ts.length = n ∧ ∀ (j : ℕ) (hj : j < ts.length),
        (ts.get ⟨j, hj⟩).type = codes.getD j 0 ∧
        (ts.get ⟨j, hj⟩).box = ⟨(posFrom p j).1, (posFrom p j).2, TILE_WIDTH, TILE_HEIGHT⟩ := by
  induction n with
  | zero =>
    intro codes p ts h
    simp [setTilesLoop] at h
    subst h
    exact ⟨rfl, fun j hj => absurd hj (by simp)⟩
  | succ n ih =>
    intro codes p ts h
    cases codes with
    | nil => simp [setTilesLoop] at h
    | cons c rest =>
      simp only [setTilesLoop] at h
      by_cases hc : 0 ≤ c ∧ c < TOTAL_TILE_SPRITES
      · rw [if_pos hc] at h
        cases hrec : setTilesLoop rest (nextPos p) n with
        | none =>
          rw [hrec] at h
          exact absurd h (by simp)
        | some ts' =>
          rw [hrec] at h
          have hts : ts = Tile.make p.1 p.2 c :: ts' := by
            injection h with h'
            exact h'.symm
          obtain ⟨hlen, hidx⟩ := ih rest (nextPos p) ts' hrec
          subst hts
          refine ⟨by simp [hlen], fun j hj => ?_⟩
          cases j with
          | zero => exact ⟨rfl, rfl⟩
          | succ j =>
            have hj' : j < ts'.length := by simpa using hj
            have hthis := hidx j hj'
            refine ⟨?_, ?_⟩
            · show (ts'.get ⟨j, hj'⟩).type = (c :: rest).getD (j + 1) 0
              rw [List.getD_cons_succ]
              exact hthis.1
            · show (ts'.get ⟨j, hj'⟩).box = _
              rw [show posFrom p (j + 1) = posFrom (nextPos p) j from rfl]
              exact hthis.2
      · rw [if_neg hc] at h
        exact absurd h (by simp)

lemma posFrom_succ : ∀ (j : ℕ) (p : ℤ × ℤ), posFrom p (j + 1) = nextPos (posFrom p j) := by
  intro j
  induction j with
  | zero => intro p; rfl
  | succ j ih =>
    intro p
    show posFrom (nextPos p) (j + 1) = nextPos (posFrom (nextPos p) j)
    exact ih (nextPos p)

lemma posFrom_zero_grid (j : ℕ) :
    posFrom (0, 0) j = (80 * ((j % 16 : ℕ) : ℤ), 80 * ((j / 16 : ℕ) : ℤ)) := by
  induction j with
  | zero => rfl
  | succ j ih =>
    rw [posFrom_succ, ih]
    unfold nextPos TILE_WIDTH TILE_HEIGHT SCREEN_WIDTH
    split_ifs with h
    · rw [Prod.mk.injEq]
      constructor <;> omega
    · rw [Prod.mk.injEq]
      constructor <;> omega



/-- C9 (amended): `setTiles` fails iff the input yields fewer than
`TOTAL_TILES` (192) codes or one of the *first 192* codes lies outside
`[0, TOTAL_TILE_SPRITES)`; codes past the 192nd are never read, so longer
input succeeds.  On success exactly 192 tiles are built, one per code in
order, tile `j` sitting at the row-major grid position
`(80·(j mod 16), 80·(j div 16))` with an 80×80 box. -/
theorem C9_setTiles_spec :
    (∀ codes : List ℤ,
      (setTiles codes).isSome = true ↔
        (TOTAL_TILES ≤ codes.length ∧
          ∀ c ∈ codes.take TOTAL_TILES, 0 ≤ c ∧ c < TOTAL_TILE_SPRITES)) ∧
    (∀ (codes : List ℤ) (ts : List Tile), setTiles codes = some ts →
      ts.length = TOTAL_TILES ∧
        ∀ (j : ℕ) (hj : j < ts.length),
          (ts.get ⟨j, hj⟩).type = codes.getD j 0 ∧
            (ts.get ⟨j, hj⟩).box =
              ⟨80 * ((j % 16 : ℕ) : ℤ), 80 * ((j / 16 : ℕ) : ℤ), 80, 80⟩) := by
  constructor
  · intro codes
    exact setTilesLoop_isSome TOTAL_TILES codes (0, 0)
  · intro codes ts h
    obtain ⟨hlen, hidx⟩ := setTilesLoop_some TOTAL_TILES codes (0, 0) ts h
    refine ⟨hlen, fun j hj => ?_⟩
    refine ⟨(hidx j hj).1, ?_⟩
    rw [(hidx j hj).2, posFrom_zero_grid]
    rfl

/-- C9 (counterexample): a well-formed sequence of 193 codes — *longer* than
`TOTAL_TILES` — loads successfully, because the loop reads exactly 192 codes
and never looks at the rest; the claim says any sequence longer than 192 codes
must fail with a load error. -/
theorem C9_counterexample :
    (List.replicate 193 (0 : ℤ)).length = 193 ∧
      (setTiles (List.replicate 193 (0 : ℤ))).isSome = true := by
  refine ⟨by rw [List.length_replicate], ?_⟩
  rw [setTiles, setTilesLoop_isSome]
  refine ⟨by rw [List.length_replicate]; norm_num [TOTAL_TILES], fun c hc => ?_⟩
  have hc0 : c = 0 := by
    rw [List.take_replicate] at hc
    exact List.eq_of_mem_replicate hc
  subst hc0
  norm_num [TOTAL_TILE_SPRITES]

/-- C9 (witness): the success characterisation applied to 192 in-range
codes. -/
theorem C9_witness :
    (setTiles (List.replicate 192 (5 : ℤ))).isSome = true := by
  apply (C9_setTiles_spec.1 (List.replicate 192 (5 : ℤ))).mpr
  refine ⟨by rw [List.length_replicate]; norm_num [TOTAL_TILES], fun c hc => ?_⟩
  have hc5 : c = 5 := by
    rw [List.take_replicate] at hc
    exact List.eq_of_mem_replicate hc
  subst hc5
  norm_num [TOTAL_TILE_SPRITES]

end GolfGame
